import Mathlib

/-!
Shallow embedding of the FastAPI + SQLite todo service in `main.py`.

The SQLite table `todos (todo_id INTEGER PRIMARY KEY AUTOINCREMENT,
content TEXT NOT NULL, completed BOOLEAN NOT NULL DEFAULT 0)` is embedded
as a list of rows kept in rowid (= `todo_id`) order, together with the
`sqlite_sequence` counter that AUTOINCREMENT maintains (the largest id
ever assigned; a fresh insert gets `seq + 1`).

Each endpoint is embedded as the composition of its pydantic request
validation (run by FastAPI before the handler) and the handler body, the
latter wrapped in `withConnection`, the embedding of the
`get_db_connection` context manager: commit (keep the new state) on
normal return, rollback (restore the entering state) and re-raise on
failure.  Handler failure is `Except.error` carrying an `HTTPException`.
-/

/-- A row of the `todos` table, also the `Todo` response model. -/
structure Todo where
  todo_id : Nat
  content : String
  completed : Bool
deriving DecidableEq, Repr

/-- Database state: the rows of the `todos` table in rowid order plus the
AUTOINCREMENT sequence counter for the table. -/
structure DB where
  rows : List Todo
  seq : Nat
deriving DecidableEq, Repr

/-- The state produced by `init_database` on a fresh `todos.db` file:
empty table, sequence counter at zero. -/
def init_database : DB := DB.mk [] 0

/-- `fastapi.HTTPException`: a status code and a detail message. -/
structure HTTPException where
  status_code : Nat
  detail : String
deriving DecidableEq, Repr

/-- `status.HTTP_404_NOT_FOUND`. -/
def HTTP_404_NOT_FOUND : Nat := 404

/-- The detail string `f"Todo with id {todo_id} not found"` used by the
get, update and delete handlers. -/
def notFoundDetail (todo_id : Nat) : String :=
  "Todo with id " ++ toString todo_id ++ " not found"

/-- The 404 `HTTPException` raised by the get, update and delete handlers. -/
def notFoundExc (todo_id : Nat) : HTTPException :=
  HTTPException.mk HTTP_404_NOT_FOUND (notFoundDetail todo_id)

/-- FastAPI surfaces a pydantic validation failure as a 422 response with
the pydantic message; the handler is never entered. -/
def validation_error (msg : String) : HTTPException :=
  HTTPException.mk 422 msg

/-- `get_db_connection`: runs the handler body `fn` on the current
database state; on normal return the new state is committed, on an
exception the state is rolled back to the entering state and the
exception re-raised. -/
def withConnection {α : Type} (db : DB) (fn : DB → Except HTTPException (DB × α)) :
    DB × Except HTTPException α :=
  match fn db with
  | Except.ok (db2, a) => (db2, Except.ok a)
  | Except.error e => (db, Except.error e)

/-- Validated body of `POST /todos` (pydantic model `TodoCreate`):
`content` required with `min_length=1`, `completed` defaulting to
`False`. -/
structure TodoCreate where
  content : String
  completed : Bool
deriving DecidableEq, Repr

/-- Pydantic validation of a `TodoCreate` body: `content` missing fails
with `Field required`; `content` shorter than `min_length=1` fails with
the pydantic `min_length` message; otherwise `completed` defaults to
`False` when absent. -/
def TodoCreate.parse (content : Option String) (completed : Option Bool) :
    Except HTTPException TodoCreate :=
  match content with
  | none => Except.error (validation_error "Field required")
  | some c =>
    if c.length < 1 then
      Except.error (validation_error "String should have at least 1 character")
    else
      Except.ok (TodoCreate.mk c (completed.getD false))

/-- Validated body of `PUT /todos/{todo_id}` (pydantic model
`TodoUpdate`): both fields optional, `content` with `min_length=1` when
supplied. -/
structure TodoUpdate where
  content : Option String
  completed : Option Bool
deriving DecidableEq, Repr

/-- Pydantic validation of a `TodoUpdate` body: an absent `content` is
allowed, a supplied `content` shorter than `min_length=1` is rejected. -/
def TodoUpdate.parse (content : Option String) (completed : Option Bool) :
    Except HTTPException TodoUpdate :=
  match content with
  | none => Except.ok (TodoUpdate.mk none completed)
  | some c =>
    if c.length < 1 then
      Except.error (validation_error "String should have at least 1 character")
    else
      Except.ok (TodoUpdate.mk (some c) completed)

/-- Row comparison used to embed `ORDER BY todo_id`. -/
def idLe (a b : Todo) : Prop := a.todo_id ≤ b.todo_id

instance : DecidableRel idLe := fun a b => Nat.decLe a.todo_id b.todo_id

instance : IsTotal Todo idLe := ⟨fun a b => Nat.le_total a.todo_id b.todo_id⟩

instance : IsTrans Todo idLe := ⟨fun _ _ _ h h2 => Nat.le_trans h h2⟩

/-- Body of `get_all_todos`: `SELECT * FROM todos ORDER BY todo_id`,
all rows mapped through `row_to_todo`. -/
def get_all_todos_body (conn : DB) : Except HTTPException (DB × List Todo) :=
  Except.ok (conn, List.insertionSort idLe conn.rows)

/-- Handler of `GET /todos` (status 200 on success). -/
def get_all_todos (db : DB) : DB × Except HTTPException (List Todo) :=
  withConnection db get_all_todos_body

/-- Body of `get_todo`: `SELECT * FROM todos WHERE todo_id = ?`,
`fetchone`, 404 when no row matches. -/
def get_todo_body (todo_id : Nat) (conn : DB) : Except HTTPException (DB × Todo) :=
  match conn.rows.find? (fun r => r.todo_id == todo_id) with
  | none => Except.error (notFoundExc todo_id)
  | some row => Except.ok (conn, row)

/-- Handler of `GET /todos/{todo_id}` (status 200 on success). -/
def get_todo (db : DB) (todo_id : Nat) : DB × Except HTTPException Todo :=
  withConnection db (get_todo_body todo_id)

/-- Body of `create_todo`: `INSERT INTO todos (content, completed)
VALUES (?, ?)`; AUTOINCREMENT assigns `lastrowid = seq + 1`; the new row
is then re-read by `SELECT ... WHERE todo_id = ?` and returned.  A
failing re-read would crash `row_to_todo` on `None`, a server error. -/
def create_todo_body (todo : TodoCreate) (conn : DB) : Except HTTPException (DB × Todo) :=
  let todo_id := conn.seq + 1
  let conn2 : DB := DB.mk (conn.rows ++ [Todo.mk todo_id todo.content todo.completed]) todo_id
  match conn2.rows.find? (fun r => r.todo_id == todo_id) with
  | none => Except.error (HTTPException.mk 500 "Internal Server Error")
  | some row => Except.ok (conn2, row)

/-- Handler of `POST /todos` on a validated body (status 201 on success). -/
def create_todo (db : DB) (todo : TodoCreate) : DB × Except HTTPException Todo :=
  withConnection db (create_todo_body todo)

/-- `POST /todos` as seen by a client: pydantic validation of the raw
body, then the handler. -/
def create_endpoint (db : DB) (content : Option String) (completed : Option Bool) :
    DB × Except HTTPException Todo :=
  match TodoCreate.parse content completed with
  | Except.error e => (db, Except.error e)
  | Except.ok todo => create_todo db todo

/-- Effect of the dynamically built `UPDATE todos SET ... WHERE
todo_id = ?` on one row: each supplied field replaces the stored value,
each omitted field is left untouched. -/
def applyUpdate (u : TodoUpdate) (t : Todo) : Todo :=
  Todo.mk t.todo_id (u.content.getD t.content) (u.completed.getD t.completed)

/-- Body of `update_todo`: check existence (404 otherwise), build the
update statement from the supplied fields, skip the `UPDATE` entirely
when no field was supplied, then re-read and return the row. -/
def update_todo_body (todo_id : Nat) (todo_update : TodoUpdate) (conn : DB) :
    Except HTTPException (DB × Todo) :=
  match conn.rows.find? (fun r => r.todo_id == todo_id) with
  | none => Except.error (notFoundExc todo_id)
  | some _ =>
    let conn2 : DB :=
      if todo_update.content.isSome || todo_update.completed.isSome then
        DB.mk (conn.rows.map (fun r => if r.todo_id == todo_id then applyUpdate todo_update r else r))
          conn.seq
      else conn
    match conn2.rows.find? (fun r => r.todo_id == todo_id) with
    | none => Except.error (HTTPException.mk 500 "Internal Server Error")
    | some row => Except.ok (conn2, row)

/-- Handler of `PUT /todos/{todo_id}` on a validated body (status 200 on
success). -/
def update_todo (db : DB) (todo_id : Nat) (todo_update : TodoUpdate) :
    DB × Except HTTPException Todo :=
  withConnection db (update_todo_body todo_id todo_update)

/-- `PUT /todos/{todo_id}` as seen by a client: pydantic validation of
the raw body, then the handler. -/
def update_endpoint (db : DB) (todo_id : Nat) (content : Option String)
    (completed : Option Bool) : DB × Except HTTPException Todo :=
  match TodoUpdate.parse content completed with
  | Except.error e => (db, Except.error e)
  | Except.ok u => update_todo db todo_id u

/-- Body of `delete_todo`: `DELETE FROM todos WHERE todo_id = ?`, then
404 when `cursor.rowcount` is zero, success with no body otherwise. -/
def delete_todo_body (todo_id : Nat) (conn : DB) : Except HTTPException (DB × Unit) :=
  let rowcount := conn.rows.countP (fun r => r.todo_id == todo_id)
  let conn2 : DB := DB.mk (conn.rows.filter (fun r => !(r.todo_id == todo_id))) conn.seq
  if rowcount == 0 then
    Except.error (notFoundExc todo_id)
  else
    Except.ok (conn2, ())

/-- Handler of `DELETE /todos/{todo_id}`. -/
def delete_todo (db : DB) (todo_id : Nat) : DB × Except HTTPException Unit :=
  withConnection db (delete_todo_body todo_id)

/-- `status.HTTP_204_NO_CONTENT`, the success status declared on the
delete route: success carries no body. -/
def delete_todo_success_status : Nat := 204

/-- States reachable from a fresh database by client-visible operations:
create, update and delete requests with arbitrary raw bodies. -/
inductive Reachable : DB → Prop where
  | init : Reachable init_database
  | create (db : DB) (c : Option String) (b : Option Bool) :
      Reachable db → Reachable (create_endpoint db c b).1
  | update (db : DB) (todo_id : Nat) (c : Option String) (b : Option Bool) :
      Reachable db → Reachable (update_endpoint db todo_id c b).1
  | delete (db : DB) (todo_id : Nat) :
      Reachable db → Reachable (delete_todo db todo_id).1

/-- Store invariant `StoreInv`: row ids are pairwise distinct, contents non-empty,
ids positive and bounded by the sequence counter. -/
def StoreInv (db : DB) : Prop :=
  db.rows.Pairwise (fun a b => a.todo_id ≠ b.todo_id) ∧
  ∀ t ∈ db.rows, t.content ≠ "" ∧ 1 ≤ t.todo_id ∧ t.todo_id ≤ db.seq

/-! ## Helper lemmas -/

/-- A non-empty string passes the pydantic `min_length=1` check. -/
theorem not_length_lt_one_of_ne_empty (s : String) (h : s ≠ "") : ¬ s.length < 1 := by
  intro hl
  apply h
  apply String.ext
  have h1 : s.length = s.data.length := (String.length_data s).symm
  have h0 : s.data.length = 0 := by omega
  simpa using List.length_eq_zero.mp h0

/-- The body of a scoped operation fails: the state is rolled back and
the exception re-raised. -/
theorem withConnection_of_error {α : Type} (db : DB)
    (fn : DB → Except HTTPException (DB × α)) (e : HTTPException)
    (h : fn db = Except.error e) : withConnection db fn = (db, Except.error e) := by
  unfold withConnection
  rw [h]

/-- The body of a scoped operation succeeds: the new state is committed. -/
theorem withConnection_of_ok {α : Type} (db : DB)
    (fn : DB → Except HTTPException (DB × α)) (db2 : DB) (a : α)
    (h : fn db = Except.ok (db2, a)) : withConnection db fn = (db2, Except.ok a) := by
  unfold withConnection
  rw [h]

/-- A failing scoped operation leaves the state exactly as it was. -/
theorem withConnection_error_state {α : Type} (db : DB)
    (fn : DB → Except HTTPException (DB × α)) (e : HTTPException)
    (h : (withConnection db fn).2 = Except.error e) : (withConnection db fn).1 = db := by
  unfold withConnection at h ⊢
  cases hfn : fn db with
  | ok p => rw [hfn] at h; simp at h
  | error e2 => rfl

/-- When every existing row id is bounded by the sequence counter, the
insert of `create_todo` appends a fresh row carrying `seq + 1` and the
re-read returns exactly that row. -/
theorem create_todo_eq (db : DB) (todo : TodoCreate)
    (hseq : ∀ t ∈ db.rows, t.todo_id ≤ db.seq) :
    create_todo db todo =
      (DB.mk (db.rows ++ [Todo.mk (db.seq + 1) todo.content todo.completed]) (db.seq + 1),
       Except.ok (Todo.mk (db.seq + 1) todo.content todo.completed)) := by
  apply withConnection_of_ok
  unfold create_todo_body
  have hnone : db.rows.find? (fun r => r.todo_id == db.seq + 1) = none := by
    rw [List.find?_eq_none]
    intro x hx
    have := hseq x hx
    simp only [beq_iff_eq]
    omega
  simp only [List.find?_append, hnone, Option.none_or, List.find?_cons,
    beq_self_eq_true]

/-- Looking up the freshly inserted id after `create_todo` finds the new
row. -/
theorem find?_new_row (db : DB) (c : String) (b : Bool)
    (hseq : ∀ t ∈ db.rows, t.todo_id ≤ db.seq) :
    (db.rows ++ [Todo.mk (db.seq + 1) c b]).find? (fun r => r.todo_id == db.seq + 1) =
      some (Todo.mk (db.seq + 1) c b) := by
  have hnone : db.rows.find? (fun r => r.todo_id == db.seq + 1) = none := by
    rw [List.find?_eq_none]
    intro x hx
    have := hseq x hx
    simp only [beq_iff_eq]
    omega
  simp only [List.find?_append, hnone, Option.none_or, List.find?_cons,
    beq_self_eq_true]

/-- Reading back the id assigned by the insert finds exactly the new
row. -/
theorem get_after_create (db : DB) (c : String) (b : Bool)
    (hseq : ∀ t ∈ db.rows, t.todo_id ≤ db.seq) :
    get_todo (DB.mk (db.rows ++ [Todo.mk (db.seq + 1) c b]) (db.seq + 1)) (db.seq + 1) =
      (DB.mk (db.rows ++ [Todo.mk (db.seq + 1) c b]) (db.seq + 1),
       Except.ok (Todo.mk (db.seq + 1) c b)) := by
  apply withConnection_of_ok
  unfold get_todo_body
  simp only [find?_new_row db c b hseq]

/-! ## Claim theorems -/

/-- C1: for every non-empty content string and boolean completed flag,
Create returns a record with exactly the submitted content and completed
values and a positive integer id, a subsequent Get with that id returns
the identical record, and when completed is omitted it defaults to
false.  The hypothesis on `db` (row ids bounded by the sequence counter)
holds in every reachable store. -/
theorem create_then_get_roundtrip (db : DB) (c : String) (b : Bool)
    (hc : c ≠ "") (hseq : ∀ t ∈ db.rows, t.todo_id ≤ db.seq) :
    (∃ todo : Todo,
      (create_endpoint db (some c) (some b)).2 = Except.ok todo ∧
      todo.content = c ∧ todo.completed = b ∧ 1 ≤ todo.todo_id ∧
      (get_todo (create_endpoint db (some c) (some b)).1 todo.todo_id).2 = Except.ok todo) ∧
    (∃ todo : Todo,
      (create_endpoint db (some c) none).2 = Except.ok todo ∧
      todo.content = c ∧ todo.completed = false ∧ 1 ≤ todo.todo_id) := by
  have hlen := not_length_lt_one_of_ne_empty c hc
  constructor
  · refine ⟨Todo.mk (db.seq + 1) c b, ?_, rfl, rfl, Nat.le_add_left 1 db.seq, ?_⟩
    · unfold create_endpoint TodoCreate.parse
      simp only [hlen, if_false, Option.getD_some, Option.getD_none]
      exact congrArg Prod.snd (create_todo_eq db (TodoCreate.mk c b) hseq)
    · unfold create_endpoint TodoCreate.parse
      simp only [hlen, if_false, Option.getD_some, Option.getD_none]
      rw [create_todo_eq db (TodoCreate.mk c b) hseq]
      exact congrArg Prod.snd (get_after_create db c b hseq)
  · refine ⟨Todo.mk (db.seq + 1) c false, ?_, rfl, rfl, Nat.le_add_left 1 db.seq⟩
    unfold create_endpoint TodoCreate.parse
    simp only [hlen, if_false, Option.getD_some, Option.getD_none]
    exact congrArg Prod.snd (create_todo_eq db (TodoCreate.mk c false) hseq)

/-- Witness for C1 at a concrete store. -/
theorem create_then_get_roundtrip_witness :
    ("buy milk" ≠ "" ∧ ∀ t ∈ init_database.rows, t.todo_id ≤ init_database.seq) ∧
    ((∃ todo : Todo,
      (create_endpoint init_database (some "buy milk") (some true)).2 = Except.ok todo ∧
      todo.content = "buy milk" ∧ todo.completed = true ∧ 1 ≤ todo.todo_id ∧
      (get_todo (create_endpoint init_database (some "buy milk") (some true)).1
        todo.todo_id).2 = Except.ok todo) ∧
    (∃ todo : Todo,
      (create_endpoint init_database (some "buy milk") none).2 = Except.ok todo ∧
      todo.content = "buy milk" ∧ todo.completed = false ∧ 1 ≤ todo.todo_id)) :=
  ⟨⟨by decide, by intro t ht; simp [init_database] at ht⟩,
   create_then_get_roundtrip init_database "buy milk" true (by decide)
     (by intro t ht; simp [init_database] at ht)⟩

/-- The state after `update_todo` is either unchanged (missing id, or no
field supplied, or rolled back) or the pointwise rewrite of the matching
rows by the supplied fields. -/
theorem update_todo_state (db : DB) (todo_id : Nat) (u : TodoUpdate) :
    (update_todo db todo_id u).1 = db ∨
    (update_todo db todo_id u).1 =
      DB.mk (db.rows.map (fun r => if r.todo_id == todo_id then applyUpdate u r else r))
        db.seq := by
  unfold update_todo withConnection update_todo_body
  cases hf : db.rows.find? (fun r => r.todo_id == todo_id) with
  | none => left; simp only [hf]
  | some t0 =>
    simp only [hf]
    by_cases hsome : (u.content.isSome || u.completed.isSome) = true
    · simp only [hsome, if_true]
      cases hf2 : (db.rows.map
          (fun r => if r.todo_id == todo_id then applyUpdate u r else r)).find?
          (fun r => r.todo_id == todo_id) with
      | none => left; rfl
      | some row => right; rfl
    · left
      simp only [hsome, Bool.false_eq_true, if_false, hf]

/-- Rows of the state after an update stand in pointwise relation `P` to
the rows before it, provided `P` is reflexive and relates each row to
its rewritten form. -/
theorem update_todo_forall2 (db : DB) (todo_id : Nat) (u : TodoUpdate)
    (P : Todo → Todo → Prop)
    (hrefl : ∀ t, P t t)
    (hupd : ∀ t, (t.todo_id == todo_id) = true → P t (applyUpdate u t)) :
    List.Forall₂ P db.rows (update_todo db todo_id u).1.rows := by
  rcases update_todo_state db todo_id u with h | h
  · rw [h]
    exact List.forall₂_same.mpr (fun x _ => hrefl x)
  · rw [h]
    have : List.Forall₂ (fun a b => P a ((fun r => if r.todo_id == todo_id then applyUpdate u r else r) b)) db.rows db.rows := by
      apply List.forall₂_same.mpr
      intro x _
      by_cases hx : (x.todo_id == todo_id) = true
      · simp only [hx, if_true]
        exact hupd x hx
      · simp only [hx, if_false]
        exact hrefl x
    exact List.forall₂_map_right_iff.mpr this

/-- C2: updating only `completed` leaves every row's `content` and
`todo_id` as they were and leaves every non-targeted row entirely
unchanged; symmetrically, updating only `content` leaves `completed` and
`todo_id` unchanged. -/
theorem update_partial_frame (db : DB) (todo_id : Nat) (b : Bool) (c : String) :
    List.Forall₂ (fun t t2 => t2.todo_id = t.todo_id ∧ t2.content = t.content ∧
        (t.todo_id ≠ todo_id → t2 = t))
      db.rows (update_endpoint db todo_id none (some b)).1.rows ∧
    List.Forall₂ (fun t t2 => t2.todo_id = t.todo_id ∧ t2.completed = t.completed ∧
        (t.todo_id ≠ todo_id → t2 = t))
      db.rows (update_endpoint db todo_id (some c) none).1.rows := by
  constructor
  · show List.Forall₂ _ db.rows (update_todo db todo_id (TodoUpdate.mk none (some b))).1.rows
    apply update_todo_forall2
    · intro t
      exact ⟨rfl, rfl, fun _ => rfl⟩
    · intro t ht
      refine ⟨rfl, rfl, fun hne => absurd (beq_iff_eq.mp ht) hne⟩
  · unfold update_endpoint TodoUpdate.parse
    by_cases hlen : c.length < 1
    · simp only [hlen, if_true]
      exact List.forall₂_same.mpr (fun x _ => ⟨rfl, rfl, fun _ => rfl⟩)
    · simp only [hlen, if_false]
      apply update_todo_forall2
      · intro t
        exact ⟨rfl, rfl, fun _ => rfl⟩
      · intro t ht
        refine ⟨rfl, rfl, fun hne => absurd (beq_iff_eq.mp ht) hne⟩

/-- Witness for C2 at a concrete store. -/
theorem update_partial_frame_witness :
    List.Forall₂ (fun t t2 => t2.todo_id = t.todo_id ∧ t2.content = t.content ∧
        (t.todo_id ≠ 1 → t2 = t))
      (DB.mk [Todo.mk 1 "a" false, Todo.mk 2 "b" false] 2).rows
      (update_endpoint (DB.mk [Todo.mk 1 "a" false, Todo.mk 2 "b" false] 2) 1
        none (some true)).1.rows ∧
    List.Forall₂ (fun t t2 => t2.todo_id = t.todo_id ∧ t2.completed = t.completed ∧
        (t.todo_id ≠ 1 → t2 = t))
      (DB.mk [Todo.mk 1 "a" false, Todo.mk 2 "b" false] 2).rows
      (update_endpoint (DB.mk [Todo.mk 1 "a" false, Todo.mk 2 "b" false] 2) 1
        (some "c") none).1.rows :=
  update_partial_frame (DB.mk [Todo.mk 1 "a" false, Todo.mk 2 "b" false] 2) 1 true "c"

/-- C3: List returns all persisted records sorted by ascending id, does
not change the store, and on the empty store returns the empty list
rather than an error. -/
theorem list_all_sorted (db : DB) :
    (get_all_todos db).1 = db ∧
    (∃ l : List Todo, (get_all_todos db).2 = Except.ok l ∧
      List.Perm l db.rows ∧
      l.Pairwise (fun a b => a.todo_id ≤ b.todo_id)) ∧
    (get_all_todos init_database).2 = Except.ok [] := by
  refine ⟨rfl, ⟨List.insertionSort idLe db.rows, rfl,
    List.perm_insertionSort idLe db.rows, ?_⟩, rfl⟩
  exact List.sorted_insertionSort idLe db.rows

/-- C4: on an absent id both Get and Update fail with a 404 whose detail
names the id and leave the store untouched; on a present id Get returns
the persisted record. -/
theorem notfound_get_update (db : DB) (todo_id : Nat) (u : TodoUpdate)
    (habs : ∀ t ∈ db.rows, t.todo_id ≠ todo_id) :
    get_todo db todo_id = (db, Except.error (notFoundExc todo_id)) ∧
    update_todo db todo_id u = (db, Except.error (notFoundExc todo_id)) ∧
    (notFoundExc todo_id).status_code = 404 ∧
    (notFoundExc todo_id).detail = "Todo with id " ++ toString todo_id ++ " not found" ∧
    (∀ (id2 : Nat) (t : Todo), db.rows.find? (fun r => r.todo_id == id2) = some t →
      (get_todo db id2).2 = Except.ok t ∧ t ∈ db.rows) := by
  have hnone : db.rows.find? (fun r => r.todo_id == todo_id) = none := by
    rw [List.find?_eq_none]
    intro x hx
    simpa using habs x hx
  refine ⟨?_, ?_, rfl, rfl, ?_⟩
  · apply withConnection_of_error
    unfold get_todo_body
    rw [hnone]
  · apply withConnection_of_error
    unfold update_todo_body
    rw [hnone]
  · intro id2 t hft
    have hok : get_todo db id2 = (db, Except.ok t) := by
      apply withConnection_of_ok
      unfold get_todo_body
      rw [hft]
    exact ⟨congrArg Prod.snd hok, List.mem_of_find?_eq_some hft⟩

/-- Witness for C4 at a concrete store. -/
theorem notfound_get_update_witness :
    (∀ t ∈ (DB.mk [Todo.mk 1 "a" false] 1).rows, t.todo_id ≠ 5) ∧
    (get_todo (DB.mk [Todo.mk 1 "a" false] 1) 5 =
      (DB.mk [Todo.mk 1 "a" false] 1, Except.error (notFoundExc 5)) ∧
    update_todo (DB.mk [Todo.mk 1 "a" false] 1) 5 (TodoUpdate.mk none none) =
      (DB.mk [Todo.mk 1 "a" false] 1, Except.error (notFoundExc 5)) ∧
    (notFoundExc 5).status_code = 404 ∧
    (notFoundExc 5).detail = "Todo with id " ++ toString 5 ++ " not found" ∧
    (∀ (id2 : Nat) (t : Todo),
      (DB.mk [Todo.mk 1 "a" false] 1).rows.find? (fun r => r.todo_id == id2) = some t →
      (get_todo (DB.mk [Todo.mk 1 "a" false] 1) id2).2 = Except.ok t ∧
        t ∈ (DB.mk [Todo.mk 1 "a" false] 1).rows)) :=
  ⟨by decide, notfound_get_update (DB.mk [Todo.mk 1 "a" false] 1) 5
    (TodoUpdate.mk none none) (by decide)⟩

/-- When some row carries the id, `DELETE` removes every matching row,
the operation commits, and the response has no body. -/
theorem delete_todo_eq_of_pos (db : DB) (todo_id : Nat)
    (hpos : db.rows.countP (fun r => r.todo_id == todo_id) ≠ 0) :
    delete_todo db todo_id =
      (DB.mk (db.rows.filter (fun r => !(r.todo_id == todo_id))) db.seq, Except.ok ()) := by
  apply withConnection_of_ok
  unfold delete_todo_body
  have hbeq : (db.rows.countP (fun r => r.todo_id == todo_id) == 0) = false := by
    rw [beq_eq_false_iff_ne]
    exact hpos
  simp only [hbeq, Bool.false_eq_true, if_false]

/-- When no row carries the id, `cursor.rowcount` is zero and the delete
handler raises 404; the store is left as it was. -/
theorem delete_todo_eq_of_zero (db : DB) (todo_id : Nat)
    (hz : db.rows.countP (fun r => r.todo_id == todo_id) = 0) :
    delete_todo db todo_id = (db, Except.error (notFoundExc todo_id)) := by
  apply withConnection_of_error
  unfold delete_todo_body
  simp only [hz, beq_self_eq_true, if_true]

/-- C5: deleting a present id succeeds with no body (204 on the route)
and removes the row permanently: a subsequent Get fails with 404 and a
second Delete fails with 404; in general Delete fails with 404 exactly
when zero rows were affected. -/
theorem delete_then_gone (db : DB) (todo_id : Nat) (t : Todo)
    (hmem : t ∈ db.rows) (hid : t.todo_id = todo_id) :
    (delete_todo db todo_id).2 = Except.ok () ∧
    delete_todo_success_status = 204 ∧
    (∀ t2 ∈ (delete_todo db todo_id).1.rows, t2.todo_id ≠ todo_id) ∧
    (get_todo (delete_todo db todo_id).1 todo_id).2 = Except.error (notFoundExc todo_id) ∧
    (delete_todo (delete_todo db todo_id).1 todo_id).2 = Except.error (notFoundExc todo_id) ∧
    (∀ (d : DB) (j : Nat),
      (delete_todo d j).2 = Except.error (notFoundExc j) ↔
        d.rows.countP (fun r => r.todo_id == j) = 0) := by
  have hpos : db.rows.countP (fun r => r.todo_id == todo_id) ≠ 0 := by
    intro hz
    have := (List.countP_eq_zero.mp hz) t hmem
    simp [hid] at this
  have hdel := delete_todo_eq_of_pos db todo_id hpos
  have hgone : ∀ t2 ∈ (delete_todo db todo_id).1.rows, t2.todo_id ≠ todo_id := by
    rw [hdel]
    intro t2 ht2
    have := (List.mem_filter.mp ht2).2
    simpa using this
  have hz2 : (delete_todo db todo_id).1.rows.countP (fun r => r.todo_id == todo_id) = 0 := by
    rw [List.countP_eq_zero]
    intro a ha
    simpa using hgone a ha
  have hiff : ∀ (d : DB) (j : Nat),
      (delete_todo d j).2 = Except.error (notFoundExc j) ↔
        d.rows.countP (fun r => r.todo_id == j) = 0 := by
    intro d j
    by_cases hz : d.rows.countP (fun r => r.todo_id == j) = 0
    · rw [delete_todo_eq_of_zero d j hz]
      simpa using hz
    · rw [delete_todo_eq_of_pos d j hz]
      simp only []
      constructor
      · intro h2
        exact absurd h2 (by simp)
      · intro h2
        exact absurd h2 hz
  refine ⟨by rw [hdel], rfl, hgone, ?_, ?_, hiff⟩
  · have hget : get_todo (delete_todo db todo_id).1 todo_id =
        ((delete_todo db todo_id).1, Except.error (notFoundExc todo_id)) := by
      apply withConnection_of_error
      unfold get_todo_body
      have hn : (delete_todo db todo_id).1.rows.find? (fun r => r.todo_id == todo_id) = none := by
        rw [List.find?_eq_none]
        intro x hx
        simpa using hgone x hx
      rw [hn]
    exact congrArg Prod.snd hget
  · rw [(hiff (delete_todo db todo_id).1 todo_id).mpr hz2]

/-- Witness for C5 at a concrete store. -/
theorem delete_then_gone_witness :
    (Todo.mk 1 "a" false ∈ (DB.mk [Todo.mk 1 "a" false] 1).rows ∧
      (Todo.mk 1 "a" false).todo_id = 1) ∧
    ((delete_todo (DB.mk [Todo.mk 1 "a" false] 1) 1).2 = Except.ok () ∧
    delete_todo_success_status = 204 ∧
    (∀ t2 ∈ (delete_todo (DB.mk [Todo.mk 1 "a" false] 1) 1).1.rows, t2.todo_id ≠ 1) ∧
    (get_todo (delete_todo (DB.mk [Todo.mk 1 "a" false] 1) 1).1 1).2 =
      Except.error (notFoundExc 1) ∧
    (delete_todo (delete_todo (DB.mk [Todo.mk 1 "a" false] 1) 1).1 1).2 =
      Except.error (notFoundExc 1) ∧
    (∀ (d : DB) (j : Nat),
      (delete_todo d j).2 = Except.error (notFoundExc j) ↔
        d.rows.countP (fun r => r.todo_id == j) = 0)) :=
  ⟨⟨by decide, rfl⟩,
   delete_then_gone (DB.mk [Todo.mk 1 "a" false] 1) 1 (Todo.mk 1 "a" false) (by decide) rfl⟩

/-- C6: a Create whose body has a missing or empty `content` field is
rejected by pydantic with a descriptive 4xx message before the handler
runs; the store after the failed Create equals the store before it. -/
theorem create_invalid_content_rejected (db : DB) (b : Option Bool) :
    create_endpoint db none b = (db, Except.error (validation_error "Field required")) ∧
    create_endpoint db (some "") b =
      (db, Except.error (validation_error "String should have at least 1 character")) ∧
    (∀ msg : String, 400 ≤ (validation_error msg).status_code ∧
      (validation_error msg).status_code < 500) := by
  refine ⟨rfl, ?_, fun msg => ⟨by norm_num [validation_error], by norm_num [validation_error]⟩⟩
  unfold create_endpoint TodoCreate.parse
  have h0 : ("" : String).length < 1 := by decide
  simp only [h0, if_true]

/-- C7: an Update supplying neither field performs no mutation — the
store after the call equals the store before it — and returns the
existing record unchanged. -/
theorem update_no_fields_noop (db : DB) (todo_id : Nat) (t : Todo)
    (h : db.rows.find? (fun r => r.todo_id == todo_id) = some t) :
    update_endpoint db todo_id none none = (db, Except.ok t) := by
  show update_todo db todo_id (TodoUpdate.mk none none) = (db, Except.ok t)
  apply withConnection_of_ok
  unfold update_todo_body
  simp only [h, Option.isSome_none, Bool.or_self, Bool.false_eq_true, if_false]

/-- Witness for C7 at a concrete store. -/
theorem update_no_fields_noop_witness :
    (DB.mk [Todo.mk 1 "a" false] 1).rows.find? (fun r => r.todo_id == 1) =
      some (Todo.mk 1 "a" false) ∧
    update_endpoint (DB.mk [Todo.mk 1 "a" false] 1) 1 none none =
      (DB.mk [Todo.mk 1 "a" false] 1, Except.ok (Todo.mk 1 "a" false)) :=
  ⟨by decide, update_no_fields_noop (DB.mk [Todo.mk 1 "a" false] 1) 1
    (Todo.mk 1 "a" false) (by decide)⟩

/-- C8: every operation runs inside one scoped connection that commits
on normal return and rolls back re-raising on failure, so each
operation is atomic: whenever an operation fails, the persisted state is
exactly what it was before the operation. -/
theorem scoped_connection_atomicity (db : DB) :
    (∀ (α : Type) (fn : DB → Except HTTPException (DB × α)) (e : HTTPException),
      fn db = Except.error e → withConnection db fn = (db, Except.error e)) ∧
    (∀ (α : Type) (fn : DB → Except HTTPException (DB × α)) (db2 : DB) (a : α),
      fn db = Except.ok (db2, a) → withConnection db fn = (db2, Except.ok a)) ∧
    (∀ (todo_id : Nat) (e : HTTPException),
      (get_todo db todo_id).2 = Except.error e → (get_todo db todo_id).1 = db) ∧
    (∀ (c : Option String) (b : Option Bool) (e : HTTPException),
      (create_endpoint db c b).2 = Except.error e → (create_endpoint db c b).1 = db) ∧
    (∀ (todo_id : Nat) (c : Option String) (b : Option Bool) (e : HTTPException),
      (update_endpoint db todo_id c b).2 = Except.error e →
        (update_endpoint db todo_id c b).1 = db) ∧
    (∀ (todo_id : Nat) (e : HTTPException),
      (delete_todo db todo_id).2 = Except.error e → (delete_todo db todo_id).1 = db) := by
  refine ⟨?_, ?_, ?_, ?_, ?_, ?_⟩
  · intro α fn e h
    exact withConnection_of_error db fn e h
  · intro α fn db2 a h
    exact withConnection_of_ok db fn db2 a h
  · intro todo_id e h
    exact withConnection_error_state db (get_todo_body todo_id) e h
  · intro c b e h
    unfold create_endpoint at h ⊢
    cases hp : TodoCreate.parse c b with
    | error e2 => rfl
    | ok todo =>
      rw [hp] at h
      exact withConnection_error_state db (create_todo_body todo) e h
  · intro todo_id c b e h
    unfold update_endpoint at h ⊢
    cases hp : TodoUpdate.parse c b with
    | error e2 => rfl
    | ok u =>
      rw [hp] at h
      exact withConnection_error_state db (update_todo_body todo_id u) e h
  · intro todo_id e h
    exact withConnection_error_state db (delete_todo_body todo_id) e h

/-- Witness for C8 at a concrete store. -/
theorem scoped_connection_atomicity_witness :
    (∀ (α : Type) (fn : DB → Except HTTPException (DB × α)) (e : HTTPException),
      fn init_database = Except.error e →
        withConnection init_database fn = (init_database, Except.error e)) ∧
    (∀ (α : Type) (fn : DB → Except HTTPException (DB × α)) (db2 : DB) (a : α),
      fn init_database = Except.ok (db2, a) → withConnection init_database fn = (db2, Except.ok a)) ∧
    (∀ (todo_id : Nat) (e : HTTPException),
      (get_todo init_database todo_id).2 = Except.error e →
        (get_todo init_database todo_id).1 = init_database) ∧
    (∀ (c : Option String) (b : Option Bool) (e : HTTPException),
      (create_endpoint init_database c b).2 = Except.error e →
        (create_endpoint init_database c b).1 = init_database) ∧
    (∀ (todo_id : Nat) (c : Option String) (b : Option Bool) (e : HTTPException),
      (update_endpoint init_database todo_id c b).2 = Except.error e →
        (update_endpoint init_database todo_id c b).1 = init_database) ∧
    (∀ (todo_id : Nat) (e : HTTPException),
      (delete_todo init_database todo_id).2 = Except.error e →
        (delete_todo init_database todo_id).1 = init_database) :=
  scoped_connection_atomicity init_database

/-- A string passing the `min_length=1` check is non-empty. -/
theorem ne_empty_of_not_length_lt_one (s : String) (h : ¬ s.length < 1) : s ≠ "" := by
  intro he
  subst he
  exact h (by decide)

/-- The `UPDATE` statement never touches the `todo_id` column. -/
theorem update_row_id (u : TodoUpdate) (todo_id : Nat) (r : Todo) :
    (if r.todo_id == todo_id then applyUpdate u r else r).todo_id = r.todo_id := by
  by_cases h : (r.todo_id == todo_id) = true
  · simp [h, applyUpdate]
  · simp [h]

/-- A validated `TodoCreate` body has non-empty content. -/
theorem parse_create_content (c : Option String) (b : Option Bool) (todo : TodoCreate)
    (h : TodoCreate.parse c b = Except.ok todo) : todo.content ≠ "" := by
  unfold TodoCreate.parse at h
  cases c with
  | none => exact absurd h (by simp)
  | some s =>
    by_cases hl : s.length < 1
    · simp only [if_pos hl] at h
      exact absurd h (by simp)
    · simp only [if_neg hl] at h
      have : todo = TodoCreate.mk s ((b).getD false) := by
        injection h with h2
        exact h2.symm
      rw [this]
      exact ne_empty_of_not_length_lt_one s hl

/-- A validated `TodoUpdate` body carries non-empty content whenever it
carries content at all. -/
theorem parse_update_content (c : Option String) (b : Option Bool) (u : TodoUpdate)
    (h : TodoUpdate.parse c b = Except.ok u) :
    ∀ s : String, u.content = some s → s ≠ "" := by
  unfold TodoUpdate.parse at h
  cases c with
  | none =>
    have : u = TodoUpdate.mk none b := by
      injection h with h2
      exact h2.symm
    rw [this]
    intro s hs
    exact absurd hs (by simp)
  | some s0 =>
    by_cases hl : s0.length < 1
    · simp only [if_pos hl] at h
      exact absurd h (by simp)
    · simp only [if_neg hl] at h
      have : u = TodoUpdate.mk (some s0) b := by
        injection h with h2
        exact h2.symm
      rw [this]
      intro s hs
      have hss : s = s0 := by
        injection hs with h3
        exact h3.symm
      rw [hss]
      exact ne_empty_of_not_length_lt_one s0 hl

/-- The state after a create request: unchanged when validation fails,
otherwise the state of `create_todo` on the validated body. -/
theorem create_endpoint_state (db : DB) (c : Option String) (b : Option Bool) :
    (create_endpoint db c b).1 = db ∨
    (∃ todo : TodoCreate, TodoCreate.parse c b = Except.ok todo ∧
      create_endpoint db c b = create_todo db todo) := by
  unfold create_endpoint
  cases hp : TodoCreate.parse c b with
  | error e => left; rfl
  | ok todo => right; exact ⟨todo, rfl, rfl⟩

/-- The state after an update request: unchanged when validation fails,
otherwise either unchanged or the pointwise rewrite of the matching rows
by a validated body. -/
theorem update_endpoint_state (db : DB) (todo_id : Nat) (c : Option String)
    (b : Option Bool) :
    (update_endpoint db todo_id c b).1 = db ∨
    (∃ u : TodoUpdate, TodoUpdate.parse c b = Except.ok u ∧
      (update_endpoint db todo_id c b).1 =
        DB.mk (db.rows.map (fun r => if r.todo_id == todo_id then applyUpdate u r else r))
          db.seq) := by
  unfold update_endpoint
  cases hp : TodoUpdate.parse c b with
  | error e => left; rfl
  | ok u =>
    rcases update_todo_state db todo_id u with h | h
    · left; exact h
    · right; exact ⟨u, rfl, h⟩

/-- The invariant holds on a fresh database. -/
theorem storeInv_init : StoreInv init_database := by
  constructor
  · exact List.Pairwise.nil
  · intro t ht
    exact absurd ht (by simp [init_database])

/-- A create request preserves the store invariant. -/
theorem storeInv_create (db : DB) (c : Option String) (b : Option Bool)
    (h : StoreInv db) : StoreInv (create_endpoint db c b).1 := by
  rcases create_endpoint_state db c b with hs | ⟨todo, hp, hs⟩
  · rw [hs]; exact h
  · have hseq : ∀ t ∈ db.rows, t.todo_id ≤ db.seq := fun t ht => (h.2 t ht).2.2
    rw [hs, create_todo_eq db todo hseq]
    constructor
    · rw [List.pairwise_append]
      refine ⟨h.1, List.pairwise_singleton _ _, ?_⟩
      intro a ha b2 hb2
      have hb3 : b2 = Todo.mk (db.seq + 1) todo.content todo.completed := by
        simpa using hb2
      have := hseq a ha
      rw [hb3]
      simp only []
      omega
    · intro t ht
      rcases List.mem_append.mp ht with hold | hnew
      · have := h.2 t hold
        exact ⟨this.1, this.2.1, Nat.le_succ_of_le this.2.2⟩
      · have ht2 : t = Todo.mk (db.seq + 1) todo.content todo.completed := by
          simpa using hnew
        rw [ht2]
        exact ⟨parse_create_content c b todo hp, Nat.le_add_left 1 db.seq, Nat.le_refl _⟩

/-- An update request preserves the store invariant. -/
theorem storeInv_update (db : DB) (todo_id : Nat) (c : Option String) (b : Option Bool)
    (h : StoreInv db) : StoreInv (update_endpoint db todo_id c b).1 := by
  rcases update_endpoint_state db todo_id c b with hs | ⟨u, hp, hs⟩
  · rw [hs]; exact h
  · rw [hs]
    constructor
    · apply List.pairwise_map.mpr
      apply h.1.imp_of_mem
      intro a b2 _ _ hne
      rw [update_row_id, update_row_id]
      exact hne
    · intro t ht
      rcases List.mem_map.mp ht with ⟨x, hx, hfx⟩
      have hx2 := h.2 x hx
      by_cases hm : (x.todo_id == todo_id) = true
      · rw [← hfx]
        simp only [hm, if_true]
        refine ⟨?_, ?_, ?_⟩
        · show (applyUpdate u x).content ≠ ""
          unfold applyUpdate
          cases hc : u.content with
          | none => simpa using hx2.1
          | some s =>
            simp only [Option.getD_some]
            exact parse_update_content c b u hp s hc
        · show 1 ≤ (applyUpdate u x).todo_id
          unfold applyUpdate
          exact hx2.2.1
        · show (applyUpdate u x).todo_id ≤ db.seq
          unfold applyUpdate
          exact hx2.2.2
      · rw [← hfx]
        simp only [hm, if_false]
        exact hx2
  
/-- A delete request preserves the store invariant. -/
theorem storeInv_delete (db : DB) (todo_id : Nat) (h : StoreInv db) :
    StoreInv (delete_todo db todo_id).1 := by
  by_cases hz : db.rows.countP (fun r => r.todo_id == todo_id) = 0
  · rw [delete_todo_eq_of_zero db todo_id hz]
    exact h
  · rw [delete_todo_eq_of_pos db todo_id hz]
    constructor
    · exact h.1.sublist (List.filter_sublist db.rows)
    · intro t ht
      exact h.2 t (List.mem_filter.mp ht).1

/-- Every reachable store satisfies the invariant. -/
theorem reachable_storeInv (db : DB) (h : Reachable db) : StoreInv db := by
  induction h with
  | init => exact storeInv_init
  | create db c b _ ih => exact storeInv_create db c b ih
  | update db todo_id c b _ ih => exact storeInv_update db todo_id c b ih
  | delete db todo_id _ ih => exact storeInv_delete db todo_id ih

/-- C9: in every reachable store every persisted Todo has an id unique
among persisted rows and a non-empty content; ids are store-assigned
(a successful Create assigns an id strictly above every persisted id,
so ids increase monotonically) and an Update never changes any row's
id. -/
theorem reachable_invariants (db : DB) (h : Reachable db) :
    db.rows.Pairwise (fun a b => a.todo_id ≠ b.todo_id) ∧
    (∀ t ∈ db.rows, t.content ≠ "" ∧ 1 ≤ t.todo_id) ∧
    (∀ (todo_id : Nat) (c : Option String) (b : Option Bool),
      (update_endpoint db todo_id c b).1.rows.map Todo.todo_id =
        db.rows.map Todo.todo_id) ∧
    (∀ (c : Option String) (b : Option Bool) (todo : Todo),
      (create_endpoint db c b).2 = Except.ok todo →
        ∀ t ∈ db.rows, t.todo_id < todo.todo_id) := by
  have hinv := reachable_storeInv db h
  refine ⟨hinv.1, fun t ht => ⟨(hinv.2 t ht).1, (hinv.2 t ht).2.1⟩, ?_, ?_⟩
  · intro todo_id c b
    rcases update_endpoint_state db todo_id c b with hs | ⟨u, hp, hs⟩
    · rw [hs]
    · rw [hs]
      simp only [List.map_map]
      apply List.map_congr_left
      intro x hx
      exact update_row_id u todo_id x
  · intro c b todo hok t ht
    rcases create_endpoint_state db c b with hs | ⟨tc, hp, hs⟩
    · unfold create_endpoint at hok
      cases hp2 : TodoCreate.parse c b with
      | error e => rw [hp2] at hok; exact absurd hok (by simp)
      | ok tc =>
        rw [hp2] at hok
        have hseq : ∀ t2 ∈ db.rows, t2.todo_id ≤ db.seq := fun t2 ht2 => (hinv.2 t2 ht2).2.2
        have hok2 : (create_todo db tc).2 = Except.ok todo := hok
        rw [create_todo_eq db tc hseq] at hok2
        have : todo = Todo.mk (db.seq + 1) tc.content tc.completed := by
          injection hok2 with h2
          exact h2.symm
        rw [this]
        have := hseq t ht
        simp only []
        omega
    · rw [hs] at hok
      have hseq : ∀ t2 ∈ db.rows, t2.todo_id ≤ db.seq := fun t2 ht2 => (hinv.2 t2 ht2).2.2
      rw [create_todo_eq db tc hseq] at hok
      have : todo = Todo.mk (db.seq + 1) tc.content tc.completed := by
        injection hok with h2
        exact h2.symm
      rw [this]
      have := hseq t ht
      simp only []
      omega

/-- Witness for C9 at the initial store. -/
theorem reachable_invariants_witness :
    Reachable init_database ∧
    (init_database.rows.Pairwise (fun a b => a.todo_id ≠ b.todo_id) ∧
    (∀ t ∈ init_database.rows, t.content ≠ "" ∧ 1 ≤ t.todo_id) ∧
    (∀ (todo_id : Nat) (c : Option String) (b : Option Bool),
      (update_endpoint init_database todo_id c b).1.rows.map Todo.todo_id =
        init_database.rows.map Todo.todo_id) ∧
    (∀ (c : Option String) (b : Option Bool) (todo : Todo),
      (create_endpoint init_database c b).2 = Except.ok todo →
        ∀ t ∈ init_database.rows, t.todo_id < todo.todo_id)) :=
  ⟨Reachable.init, reachable_invariants init_database Reachable.init⟩

/-- C10: an Update supplying `content=""` is rejected by `TodoUpdate`
schema validation (`min_length=1`) with a 422 before the handler runs,
the store is left unchanged, and no update request can ever persist an
empty content string. -/
theorem update_empty_content_rejected (db : DB) (todo_id : Nat) (b : Option Bool) :
    update_endpoint db todo_id (some "") b =
      (db, Except.error (validation_error "String should have at least 1 character")) ∧
    (validation_error "String should have at least 1 character").status_code = 422 ∧
    (∀ (c : Option String) (b2 : Option Bool),
      (∀ t ∈ db.rows, t.content ≠ "") →
        ∀ t2 ∈ (update_endpoint db todo_id c b2).1.rows, t2.content ≠ "") := by
  refine ⟨?_, rfl, ?_⟩
  · unfold update_endpoint TodoUpdate.parse
    have h0 : ("" : String).length < 1 := by decide
    simp only [h0, if_true]
  · intro c b2 hne t2 ht2
    rcases update_endpoint_state db todo_id c b2 with hs | ⟨u, hp, hs⟩
    · rw [hs] at ht2
      exact hne t2 ht2
    · rw [hs] at ht2
      rcases List.mem_map.mp ht2 with ⟨x, hx, hfx⟩
      by_cases hm : (x.todo_id == todo_id) = true
      · rw [← hfx]
        simp only [hm, if_true]
        show (applyUpdate u x).content ≠ ""
        unfold applyUpdate
        cases hc : u.content with
        | none => simpa using hne x hx
        | some s =>
          simp only [Option.getD_some]
          exact parse_update_content c b2 u hp s hc
      · rw [← hfx]
        simp only [hm, if_false]
        exact hne x hx

/-- Witness for C10 at a concrete store. -/
theorem update_empty_content_rejected_witness :
    (update_endpoint (DB.mk [Todo.mk 1 "a" false] 1) 1 (some "") none =
      (DB.mk [Todo.mk 1 "a" false] 1,
       Except.error (validation_error "String should have at least 1 character")) ∧
    (validation_error "String should have at least 1 character").status_code = 422 ∧
    (∀ (c : Option String) (b2 : Option Bool),
      (∀ t ∈ (DB.mk [Todo.mk 1 "a" false] 1).rows, t.content ≠ "") →
        ∀ t2 ∈ (update_endpoint (DB.mk [Todo.mk 1 "a" false] 1) 1 c b2).1.rows,
          t2.content ≠ "")) :=
  update_empty_content_rejected (DB.mk [Todo.mk 1 "a" false] 1) 1 none
